import Mathlib

/-!
Formal model of `tollc` (src/tollc/__init__.py), a low-latency CSI camera
helper layered over cv2.VideoCapture:

* `create_cap` (lines 10-40) builds a GStreamer pipeline description string
  from `width`, `height` and `low_latency` and hands it to the external
  `cv2.VideoCapture` constructor;
* `clear_buffer` (lines 43-52) is the buffer-drainer loop run on a background
  thread: while the handle reports open it grabs (discards) one frame,
  ignoring the result, and yields with `time.sleep(0)`;
* `cap_context` (lines 55-120) is the context manager: create the cap,
  spawn the drainer thread when `low_latency`, yield the cap, and in a
  `finally` block release the cap and then join the drainer thread.

The pure string construction is embedded directly.  The effectful parts are
embedded as event traces: the coordinator of `cap_context` is a straight-line
trace, and `clear_buffer` is a function of the sequence of `isOpened()`
results the loop observes (decided by the concurrent environment) and of the
`grab()` results (which the loop ignores).
-/

/-- Pipeline description string built by `create_cap`
(src/tollc/__init__.py lines 30-40).  Each of the six appended groups below
mirrors one of the six adjacent Python f-string literals; `width` and
`height` are `Int` because Python ints are unbounded and signed, and
`cpu_count` models the value of `os.cpu_count()`. -/
def pipeline_desc (width height : Int) (low_latency : Bool) (cpu_count : Nat) : String :=
  ("nvarguscamerasrc sensor-mode=0 tnr-mode=" ++ (if low_latency then "0" else "2") ++ " ")
    ++ ("! nvvidconv interpolation-method=" ++ (if low_latency then "Nearest" else "Nicest")
          ++ " output-buffers=1 ")
    ++ ("! video/x-raw, width=" ++ toString width ++ ", height=" ++ toString height
          ++ ", format=BGRx ")
    ++ ("! videoconvert n-threads=" ++ toString cpu_count ++ " ")
    ++ "! video/x-raw, format=(string)BGR "
    ++ "! appsink"

/-- First f-string group of the pipeline description: source element with
sensor mode and temporal-noise-reduction mode. -/
def chunkA (low_latency : Bool) : String :=
  "nvarguscamerasrc sensor-mode=0 tnr-mode=" ++ (if low_latency then "0" else "2") ++ " "

/-- Second f-string group: hardware converter with interpolation method and
output buffer count. -/
def chunkB (low_latency : Bool) : String :=
  "! nvvidconv interpolation-method=" ++ (if low_latency then "Nearest" else "Nicest")
    ++ " output-buffers=1 "

/-- Third f-string group: caps filter fixing width, height and BGRx format. -/
def chunkC (width height : Int) : String :=
  "! video/x-raw, width=" ++ toString width ++ ", height=" ++ toString height
    ++ ", format=BGRx "

/-- Fourth f-string group: software colour conversion with thread count. -/
def chunkD (cpu_count : Nat) : String :=
  "! videoconvert n-threads=" ++ toString cpu_count ++ " "

/-- Fifth f-string group: caps filter fixing the final BGR format. -/
def chunkE : String := "! video/x-raw, format=(string)BGR "

/-- Sixth f-string group: the sink element. -/
def chunkF : String := "! appsink"

/-- The pipeline description is the concatenation of its six groups. -/
theorem pipeline_chunks (w h : Int) (ll : Bool) (c : Nat) :
    pipeline_desc w h ll c
      = chunkA ll ++ chunkB ll ++ chunkC w h ++ chunkD c ++ chunkE ++ chunkF := rfl

/-- The string `sub` occurs contiguously inside `s`. -/
def strContains (s sub : String) : Prop :=
  ∃ p q : String, s = p ++ (sub ++ q)

/-- Containment is preserved when text is appended on the right. -/
theorem strContains.appendExt {s sub : String} (h : strContains s sub) (t : String) :
    strContains (s ++ t) sub := by
  obtain ⟨p, q, hp⟩ := h
  exact ⟨p, q ++ t, by rw [hp]; simp only [String.append_assoc]⟩

/-- Containment is preserved when text is prepended on the left. -/
theorem strContains.prependExt {s sub : String} (h : strContains s sub) (t : String) :
    strContains (t ++ s) sub := by
  obtain ⟨p, q, hp⟩ := h
  exact ⟨t ++ p, q, by rw [hp]; simp only [String.append_assoc]⟩

/-- Lift a containment in the first group to the whole pipeline description. -/
theorem pipeline_contains_of_chunkA {sub : String} (w h : Int) (ll : Bool) (c : Nat)
    (hA : strContains (chunkA ll) sub) : strContains (pipeline_desc w h ll c) sub := by
  rw [pipeline_chunks]
  exact ((((hA.appendExt _).appendExt _).appendExt _).appendExt _).appendExt _

/-- Lift a containment in the second group to the whole pipeline description. -/
theorem pipeline_contains_of_chunkB {sub : String} (w h : Int) (ll : Bool) (c : Nat)
    (hB : strContains (chunkB ll) sub) : strContains (pipeline_desc w h ll c) sub := by
  rw [pipeline_chunks]
  exact ((((hB.prependExt _).appendExt _).appendExt _).appendExt _).appendExt _

/-- Lift a containment in the third group to the whole pipeline description. -/
theorem pipeline_contains_of_chunkC {sub : String} (w h : Int) (ll : Bool) (c : Nat)
    (hC : strContains (chunkC w h) sub) : strContains (pipeline_desc w h ll c) sub := by
  rw [pipeline_chunks]
  exact (((hC.prependExt (chunkA ll ++ chunkB ll)).appendExt _).appendExt _).appendExt _

/-- Lift a containment in the fourth group to the whole pipeline description. -/
theorem pipeline_contains_of_chunkD {sub : String} (w h : Int) (ll : Bool) (c : Nat)
    (hD : strContains (chunkD c) sub) : strContains (pipeline_desc w h ll c) sub := by
  rw [pipeline_chunks]
  exact ((hD.prependExt (chunkA ll ++ chunkB ll ++ chunkC w h)).appendExt _).appendExt _

/-- Lift a containment in the fifth group to the whole pipeline description. -/
theorem pipeline_contains_of_chunkE {sub : String} (w h : Int) (ll : Bool) (c : Nat)
    (hE : strContains chunkE sub) : strContains (pipeline_desc w h ll c) sub := by
  rw [pipeline_chunks]
  exact (hE.prependExt (chunkA ll ++ chunkB ll ++ chunkC w h ++ chunkD c)).appendExt _

/-- The first group names `sensor-mode=0`, whatever the latency mode. -/
theorem chunkA_sensor (ll : Bool) : strContains (chunkA ll) "sensor-mode=0" :=
  ⟨"nvarguscamerasrc ", " tnr-mode=" ++ ((if ll then "0" else "2") ++ " "), by
    unfold chunkA
    rw [show "nvarguscamerasrc sensor-mode=0 tnr-mode="
          = "nvarguscamerasrc " ++ "sensor-mode=0" ++ " tnr-mode=" from rfl]
    simp only [String.append_assoc]⟩

/-- In low-latency mode the first group sets `tnr-mode=0`. -/
theorem chunkA_tnr_low : strContains (chunkA true) "tnr-mode=0" :=
  ⟨"nvarguscamerasrc sensor-mode=0 ", " ", rfl⟩

/-- In high-quality mode the first group sets `tnr-mode=2`. -/
theorem chunkA_tnr_high : strContains (chunkA false) "tnr-mode=2" :=
  ⟨"nvarguscamerasrc sensor-mode=0 ", " ", rfl⟩

/-- In low-latency mode the second group selects nearest-neighbour scaling. -/
theorem chunkB_interp_low : strContains (chunkB true) "interpolation-method=Nearest" :=
  ⟨"! nvvidconv ", " output-buffers=1 ", rfl⟩

/-- In high-quality mode the second group selects the highest-quality scaler. -/
theorem chunkB_interp_high : strContains (chunkB false) "interpolation-method=Nicest" :=
  ⟨"! nvvidconv ", " output-buffers=1 ", rfl⟩

/-- The second group sets `output-buffers=1`, whatever the latency mode. -/
theorem chunkB_outbuf (ll : Bool) : strContains (chunkB ll) "output-buffers=1" :=
  ⟨"! nvvidconv interpolation-method=" ++ ((if ll then "Nearest" else "Nicest") ++ " "),
    " ", by
    unfold chunkB
    rw [show " output-buffers=1 " = " " ++ "output-buffers=1" ++ " " from rfl]
    simp only [String.append_assoc]⟩

/-- The third group carries `width=` followed by the requested width. -/
theorem chunkC_width (w h : Int) : strContains (chunkC w h) ("width=" ++ toString w) :=
  ⟨"! video/x-raw, ", ", height=" ++ toString h ++ ", format=BGRx ", by
    unfold chunkC
    rw [show "! video/x-raw, width=" = "! video/x-raw, " ++ "width=" from rfl]
    simp only [String.append_assoc]⟩

/-- The third group carries `height=` followed by the requested height. -/
theorem chunkC_height (w h : Int) : strContains (chunkC w h) ("height=" ++ toString h) :=
  ⟨"! video/x-raw, width=" ++ toString w ++ ", ", ", format=BGRx ", by
    unfold chunkC
    rw [show ", height=" = ", " ++ "height=" from rfl]
    simp only [String.append_assoc]⟩

/-- The fourth group carries `n-threads=` followed by the CPU core count. -/
theorem chunkD_threads (c : Nat) : strContains (chunkD c) ("n-threads=" ++ toString c) :=
  ⟨"! videoconvert ", " ", by
    unfold chunkD
    rw [show "! videoconvert n-threads=" = "! videoconvert " ++ "n-threads=" from rfl]
    simp only [String.append_assoc]⟩

/-- The fifth group fixes the final frame format to 3-channel 8-bit BGR. -/
theorem chunkE_bgr : strContains chunkE "format=(string)BGR" :=
  ⟨"! video/x-raw, ", " ", rfl⟩

/-- Model of a cv2.VideoCapture handle: the pipeline description it was built
from and its open/closed status (`isOpened()`). -/
structure VideoCapture where
  pipeline : String
  opened : Bool
deriving DecidableEq, Repr

/-- Model of the external cv2.VideoCapture constructor.  Per the library's
reporting convention (relied on by the module and recorded in the spec),
construction never raises: on open failure it returns a handle whose
`isOpened()` is false.  The environment `env` decides, for each pipeline
description, whether opening succeeds (daemon available, sensor free,
dimensions valid and so on). -/
def VideoCapture.construct (env : String → Bool) (desc : String) : VideoCapture :=
  { pipeline := desc, opened := env desc }

/-- `create_cap` (src/tollc/__init__.py lines 10-40): build the pipeline
description from width, height and low_latency and pass it straight to the
cv2.VideoCapture constructor.  No argument validation, no status check, no
exception path of its own. -/
def create_cap (env : String → Bool) (cpu_count : Nat) (width height : Int)
    (low_latency : Bool) : VideoCapture :=
  VideoCapture.construct env (pipeline_desc width height low_latency cpu_count)

/-- Observable operations of the module, used to state trace properties.
`create` is the `create_cap` call, `spawn` is `clear_thread.start()`,
`body completed` stands for the caller's with-block (`completed = false`
means it raised), `release` is `cap.release()`, `join` is
`clear_thread.join()`; `poll`, `grab` and `yieldCpu` are the drainer's
`cap.isOpened()`, `cap.grab()` and `time.sleep(0)` calls. -/
inductive Event where
  | create (pipeline : String)
  | spawn
  | body (completed : Bool)
  | release
  | join
  | poll (opened : Bool)
  | grab (ok : Bool)
  | yieldCpu
deriving DecidableEq, Repr

/-- `clear_buffer` (src/tollc/__init__.py lines 43-52) as a function of the
sequence `polls` of results that successive `cap.isOpened()` calls return
(decided by the concurrent environment: the status is true until the
coordinator's release takes effect and false afterwards) and the sequence
`grabs` of `cap.grab()` results (which the loop never inspects).  The loop
polls; on true it grabs one frame, discarding the result, then yields with
`time.sleep(0)` and repeats; on false it exits.  `some trace` means the loop
terminated within the observed polls, producing `trace`; `none` means the
observation window ended with the loop still running. -/
def clear_buffer : List Bool → List Bool → Option (List Event)
  | [], _ => none
  | false :: _, _ => some [Event.poll false]
  | true :: ps, gs =>
    (clear_buffer ps gs.tail).map
      (fun t => Event.poll true :: Event.grab (gs.headD false) :: Event.yieldCpu :: t)

/-- Trace of the coordinator thread of `cap_context`
(src/tollc/__init__.py lines 107-120): create the cap (line 108), spawn the
drainer thread when `low_latency` (lines 110-112), run the caller's block
(lines 113-114) — which either completes or raises, the `finally` block runs
either way — then release the cap (line 117) and, when `low_latency`, join
the drainer thread (lines 118-120). -/
def cap_context_trace (env : String → Bool) (cpu : Nat) (w h : Int)
    (low_latency completed : Bool) : List Event :=
  [Event.create (create_cap env cpu w h low_latency).pipeline]
    ++ (if low_latency then [Event.spawn] else [])
    ++ [Event.body completed]
    ++ [Event.release]
    ++ (if low_latency then [Event.join] else [])

/-- The `isOpened()` results the drainer observes across its life.  The only
operation of this layer that changes open status is `cap.release()`
(line 117), and the coordinator joins only after releasing; so the drainer
sees the handle's initial status `initOpen` for some scheduler-dependent
number `k` of polls, and false from then on — in particular it observes
false within its first `k + 1` polls. -/
def drainerPolls (initOpen : Bool) (k : Nat) : List Bool :=
  List.replicate k initOpen ++ [false]

/-- Expected drainer trace after `n` iterations with the handle open:
`n` blocks of poll-true / grab (result as supplied, and ignored) / yield,
then the final poll that observes closed. -/
def drainTrace : List Bool → Nat → List Event
  | _, 0 => [Event.poll false]
  | gs, n + 1 =>
      Event.poll true :: Event.grab (gs.headD false) :: Event.yieldCpu :: drainTrace gs.tail n

/-- Discriminator for grab (discard) events. -/
def isGrab : Event → Bool
  | Event.grab _ => true
  | _ => false

/-- Discriminator for release events. -/
def isRelease : Event → Bool
  | Event.release => true
  | _ => false

/-- Discriminator for thread-spawn events. -/
def isSpawn : Event → Bool
  | Event.spawn => true
  | _ => false

/-- Number of grab (discard) calls in a trace. -/
def countGrabs (t : List Event) : Nat := t.countP isGrab

/-- Number of release calls in a trace. -/
def countReleases (t : List Event) : Nat := t.countP isRelease

/-- Number of drainer threads started in a trace. -/
def countSpawns (t : List Event) : Nat := t.countP isSpawn

/-- Number of grab calls issued at or after the first poll that observed the
handle closed. -/
def grabsAfterClosed : List Event → Nat
  | [] => 0
  | Event.poll false :: rest => countGrabs rest
  | _ :: rest => grabsAfterClosed rest

/-- All events attributable to one `cap_context` scope: the coordinator trace
followed by the drainer thread's events when a drainer was spawned.  The two
threads interleave in real time; this list fixes no inter-thread order, and
the ordering facts proved below concern only the coordinator's own trace. -/
def scope_events (env : String → Bool) (cpu : Nat) (w h : Int)
    (low_latency completed : Bool) (k : Nat) (grabs : List Bool) : List Event :=
  cap_context_trace env cpu w h low_latency completed
    ++ (if low_latency then
          (clear_buffer (drainerPolls (create_cap env cpu w h low_latency).opened k)
              grabs).getD []
        else [])

/-- Observing the handle closed makes the loop exit at once: whatever statuses
would have followed, and whatever the grab results, the drainer performs no
grab and terminates immediately. -/
theorem clear_buffer_closed_head (rest g : List Bool) :
    clear_buffer (false :: rest) g = some [Event.poll false] := rfl

/-- While the handle stays open for `n` polls and then reports closed, the
loop runs exactly `n` grab-and-yield iterations and then exits, whatever the
grab results and whatever would have been observed later. -/
theorem clear_buffer_replicate (n : Nat) (rest g : List Bool) :
    clear_buffer (List.replicate n true ++ false :: rest) g = some (drainTrace g n) := by
  induction n generalizing g with
  | zero => rfl
  | succ m ih =>
      simp only [List.replicate_succ, List.cons_append, clear_buffer, List.append_eq,
        ih g.tail, Option.map_some', drainTrace]

/-- A drainer whose handle never opened (all polls false) exits on its very
first poll, with no grab at all. -/
theorem clear_buffer_neverOpen (k : Nat) (g : List Bool) :
    clear_buffer (drainerPolls false k) g = some [Event.poll false] := by
  cases k with
  | zero => rfl
  | succ m => rfl

/-- The drainer always terminates within the polls guaranteed by the
coordinator: since release happens before join, the poll sequence contains a
false, so the loop exits. -/
theorem clear_buffer_terminates (initOpen : Bool) (k : Nat) (g : List Bool) :
    (clear_buffer (drainerPolls initOpen k) g).isSome = true := by
  cases initOpen with
  | false => rw [clear_buffer_neverOpen]; rfl
  | true => rw [drainerPolls, clear_buffer_replicate k [] g]; rfl

/-- The drainer trace for `n` open iterations contains exactly `n` grabs. -/
theorem countGrabs_drainTrace (g : List Bool) (n : Nat) :
    countGrabs (drainTrace g n) = n := by
  induction n generalizing g with
  | zero => rfl
  | succ m ih =>
      simp only [drainTrace, countGrabs, List.countP_cons, isGrab]
      have := ih g.tail
      simp only [countGrabs] at this
      simp [this]

/-- No grab happens at or after the poll that observed the handle closed. -/
theorem grabsAfterClosed_drainTrace (g : List Bool) (n : Nat) :
    grabsAfterClosed (drainTrace g n) = 0 := by
  induction n generalizing g with
  | zero => rfl
  | succ m ih => simpa only [drainTrace, grabsAfterClosed] using ih g.tail

/-- The shape of the drainer trace is fixed by the number of open polls alone:
three events per open iteration plus the final closed poll, independent of
the grab results. -/
theorem length_drainTrace (g : List Bool) (n : Nat) :
    (drainTrace g n).length = 3 * n + 1 := by
  induction n generalizing g with
  | zero => rfl
  | succ m ih =>
      simp only [drainTrace, List.length_cons, ih g.tail]
      omega

/-- The drainer never calls release, whatever it observes. -/
theorem countReleases_clear_buffer (polls g : List Bool) :
    countReleases ((clear_buffer polls g).getD []) = 0 := by
  induction polls generalizing g with
  | nil => rfl
  | cons p ps ih =>
      cases p with
      | false => rfl
      | true =>
          simp only [clear_buffer]
          cases hc : clear_buffer ps g.tail with
          | none => rfl
          | some t =>
              have := ih g.tail
              rw [hc] at this
              simp only [Option.map_some', Option.getD_some, countReleases] at this ⊢
              simp [List.countP_cons, isRelease, this]

/-- C1: for every width, height and low_latency, and for every exit of the
cap_context scope — the caller's block completing normally or raising — by
the time control returns to the caller the handle's release has been called
(it is in the coordinator trace on both exits and for both modes), and in
low-latency mode the join has been reached and the drainer loop has
terminated: its observed poll sequence contains a closed status because
release precedes join, so clear_buffer exits and no background drain
activity survives the scope. -/
theorem claim_C1_scope_teardown (env : String → Bool) (cpu : Nat) (w h : Int)
    (completed initOpen : Bool) (k : Nat) (g : List Bool) :
    Event.release ∈ cap_context_trace env cpu w h true completed
      ∧ Event.release ∈ cap_context_trace env cpu w h false completed
      ∧ Event.join ∈ cap_context_trace env cpu w h true completed
      ∧ (clear_buffer (drainerPolls initOpen k) g).isSome = true := by
  refine ⟨?_, ?_, ?_, clear_buffer_terminates initOpen k g⟩ <;> simp [cap_context_trace]

/-- C2: on every teardown path of cap_context with low_latency true — the
caller's block completing or raising — the coordinator trace is exactly
create, spawn, body, release, join, and the release call on the handle
occurs strictly before the join of the drainer thread; the coordinator
never joins first. -/
theorem claim_C2_release_before_join (env : String → Bool) (cpu : Nat) (w h : Int)
    (completed : Bool) :
    cap_context_trace env cpu w h true completed
        = [Event.create (pipeline_desc w h true cpu), Event.spawn, Event.body completed,
            Event.release, Event.join]
      ∧ (cap_context_trace env cpu w h true completed).indexOf Event.release
          < (cap_context_trace env cpu w h true completed).indexOf Event.join := by
  refine ⟨rfl, ?_⟩
  rw [show (cap_context_trace env cpu w h true completed).indexOf Event.release = 3 from rfl,
    show (cap_context_trace env cpu w h true completed).indexOf Event.join = 4 from rfl]
  omega

/-- C3: a drainer task is spawned by cap_context if and only if low_latency is
true: the coordinator trace contains exactly one spawn when low_latency is
true and none when it is false; and when low_latency is false the scope as a
whole contributes no drainer events at all and issues no grab (discard)
call. -/
theorem claim_C3_drainer_iff_low_latency (env : String → Bool) (cpu : Nat) (w h : Int)
    (completed : Bool) (k : Nat) (g : List Bool) :
    countSpawns (cap_context_trace env cpu w h true completed) = 1
      ∧ countSpawns (cap_context_trace env cpu w h false completed) = 0
      ∧ scope_events env cpu w h false completed k g
          = cap_context_trace env cpu w h false completed
      ∧ countGrabs (scope_events env cpu w h false completed k g) = 0 := by
  refine ⟨rfl, rfl, ?_, rfl⟩
  simp [scope_events]

/-- C4: the drainer loop, while the handle reports open, performs per
iteration one poll, one discard whose supplied result is never inspected,
and one zero-duration yield; it exits as soon as a poll reports closed —
whatever statuses or grab results would have followed — with no discard at
or after that observation, and closing the handle is its only stop
condition. -/
theorem claim_C4_drainer_loop (n : Nat) (rest g : List Bool) :
    clear_buffer (List.replicate n true ++ false :: rest) g = some (drainTrace g n)
      ∧ clear_buffer (false :: rest) g = some [Event.poll false]
      ∧ countGrabs (drainTrace g n) = n
      ∧ grabsAfterClosed (drainTrace g n) = 0
      ∧ (drainTrace g n).length = 3 * n + 1 :=
  ⟨clear_buffer_replicate n rest g, clear_buffer_closed_head rest g,
    countGrabs_drainTrace g n, grabsAfterClosed_drainTrace g n, length_drainTrace g n⟩

/-- C5: for every width, height and cpu count, the pipeline description sets
the mode-dependent parameters exactly as specified: temporal noise reduction
disabled (tnr-mode=0) in low-latency mode and strength 2 (tnr-mode=2)
otherwise, and nearest-neighbour interpolation (Nearest) in low-latency mode
and the highest-quality algorithm (Nicest) otherwise. -/
theorem claim_C5_mode_params (w h : Int) (c : Nat) :
    strContains (pipeline_desc w h true c) "tnr-mode=0"
      ∧ strContains (pipeline_desc w h false c) "tnr-mode=2"
      ∧ strContains (pipeline_desc w h true c) "interpolation-method=Nearest"
      ∧ strContains (pipeline_desc w h false c) "interpolation-method=Nicest" :=
  ⟨pipeline_contains_of_chunkA w h true c chunkA_tnr_low,
    pipeline_contains_of_chunkA w h false c chunkA_tnr_high,
    pipeline_contains_of_chunkB w h true c chunkB_interp_low,
    pipeline_contains_of_chunkB w h false c chunkB_interp_high⟩

/-- C6: for every width, height, latency mode and cpu count, the pipeline
description fixes the mode-independent parameters: sensor mode index 0,
exactly one output buffer in the conversion stage, a colour-conversion
stage with thread count equal to the available CPU core count, and a final
3-channel 8-bit BGR output at exactly the requested width and height. -/
theorem claim_C6_fixed_params (w h : Int) (ll : Bool) (c : Nat) :
    strContains (pipeline_desc w h ll c) "sensor-mode=0"
      ∧ strContains (pipeline_desc w h ll c) "output-buffers=1"
      ∧ strContains (pipeline_desc w h ll c) ("n-threads=" ++ toString c)
      ∧ strContains (pipeline_desc w h ll c) ("width=" ++ toString w)
      ∧ strContains (pipeline_desc w h ll c) ("height=" ++ toString h)
      ∧ strContains (pipeline_desc w h ll c) "format=(string)BGR" :=
  ⟨pipeline_contains_of_chunkA w h ll c (chunkA_sensor ll),
    pipeline_contains_of_chunkB w h ll c (chunkB_outbuf ll),
    pipeline_contains_of_chunkD w h ll c (chunkD_threads c),
    pipeline_contains_of_chunkC w h ll c (chunkC_width w h),
    pipeline_contains_of_chunkC w h ll c (chunkC_height w h),
    pipeline_contains_of_chunkE w h ll c chunkE_bgr⟩

/-- C7: create_cap never raises on open failure: for every environment it
returns the handle produced by the (non-throwing) cv2.VideoCapture
constructor on the built description, whose open status is exactly the
environment's verdict on that description — in particular, in an environment
where opening fails the returned handle reports closed, and failure is
observable only through that status (or a later failed read). -/
theorem claim_C7_factory_no_raise (env : String → Bool) (cpu : Nat) (w h : Int)
    (ll : Bool) :
    create_cap env cpu w h ll
        = { pipeline := pipeline_desc w h ll cpu, opened := env (pipeline_desc w h ll cpu) }
      ∧ (create_cap (fun _ => false) cpu w h ll).opened = false :=
  ⟨rfl, rfl⟩

/-- C8: throughout a cap_context scope, release is invoked on the handle
exactly once, by the coordinator's teardown; the drainer loop never invokes
release, whatever it observes. -/
theorem claim_C8_release_once (env : String → Bool) (cpu : Nat) (w h : Int)
    (ll completed : Bool) (k : Nat) (g polls : List Bool) :
    countReleases (scope_events env cpu w h ll completed k g) = 1
      ∧ countReleases ((clear_buffer polls g).getD []) = 0 := by
  refine ⟨?_, countReleases_clear_buffer polls g⟩
  cases ll with
  | false => rfl
  | true =>
      have h2 := countReleases_clear_buffer
        (drainerPolls (create_cap env cpu w h true).opened k) g
      simp only [countReleases] at h2 ⊢
      simp only [scope_events, List.countP_append, if_true]
      rw [h2]
      rfl

/-- C9: create_cap validates nothing: for every integer width and height,
zero and negative values included, it builds the formatted pipeline
description — which embeds the given width and height verbatim — and returns
the constructor's handle without raising; invalid dimensions can surface
only as a closed handle. -/
theorem claim_C9_no_validation (w h : Int) (ll : Bool) (env : String → Bool)
    (cpu : Nat) :
    create_cap env cpu w h ll
        = { pipeline := pipeline_desc w h ll cpu, opened := env (pipeline_desc w h ll cpu) }
      ∧ strContains (pipeline_desc w h ll cpu) ("width=" ++ toString w)
      ∧ strContains (pipeline_desc w h ll cpu) ("height=" ++ toString h) :=
  ⟨rfl, pipeline_contains_of_chunkC w h ll cpu (chunkC_width w h),
    pipeline_contains_of_chunkC w h ll cpu (chunkC_height w h)⟩

/-- C10: when the handle fails to open and low_latency is true, cap_context
still spawns the drainer — which observes closed on its very first poll and
terminates at once, with no grab — and teardown still releases the handle
and reaches the join; the scope completes without deadlock even for a
handle that was never open. -/
theorem claim_C10_failed_open (env : String → Bool) (cpu : Nat) (w h : Int)
    (completed : Bool) (k : Nat) (g : List Bool)
    (hfail : (create_cap env cpu w h true).opened = false) :
    Event.spawn ∈ cap_context_trace env cpu w h true completed
      ∧ clear_buffer (drainerPolls (create_cap env cpu w h true).opened k) g
          = some [Event.poll false]
      ∧ countGrabs [Event.poll false] = 0
      ∧ Event.release ∈ cap_context_trace env cpu w h true completed
      ∧ Event.join ∈ cap_context_trace env cpu w h true completed := by
  refine ⟨by simp [cap_context_trace], ?_, rfl, by simp [cap_context_trace],
    by simp [cap_context_trace]⟩
  rw [hfail]
  exact clear_buffer_neverOpen k g

/-- A concrete run of the failed-open scenario: environment in which no
pipeline opens, 640 by 480, three scheduler slots before the join. -/
theorem claim_C10_failed_open_witness :
    (create_cap (fun _ => false) 4 640 480 true).opened = false
      ∧ (Event.spawn ∈ cap_context_trace (fun _ => false) 4 640 480 true true
          ∧ clear_buffer (drainerPolls ((create_cap (fun _ => false) 4 640 480 true).opened) 3) []
              = some [Event.poll false]
          ∧ countGrabs [Event.poll false] = 0
          ∧ Event.release ∈ cap_context_trace (fun _ => false) 4 640 480 true true
          ∧ Event.join ∈ cap_context_trace (fun _ => false) 4 640 480 true true) :=
  ⟨rfl, claim_C10_failed_open (fun _ => false) 4 640 480 true 3 [] rfl⟩
